import Mathlib

/-
Verification of the Rafiki language & intent understanding pipeline.

This file gives a shallow embedding, in Lean 4, of the two core services of
the repository:

  * `backend/services/intent_service.py`   (class `IntentDetector`)
  * `backend/services/language_service.py` (class `LanguageDetector`)

and proves properties of that embedding.

Modelling conventions, applied uniformly:

  * Text is a `List Char`; the character classes of the Python regexes
    (`\w`, `\d`, `\s`, `[a-z]`, `[aeiou]`) are modelled over their ASCII
    meaning, which is exact for every string occurring in the repository.
  * Python `re.search` is modelled by an explicit leftmost scan
    (`pySearch` / `pySearchB`); each individual regular expression of the
    source is compiled by hand into a matcher of type
    `List Char → Option (List Char)` whose derivation from the regex is
    documented at its definition.
  * Python floats are modelled as exact rationals (`ℚ`).  Every numeric
    comparison appearing in a claim differs by at least `1/20`, so the
    idealisation cannot flip any verdict proved here.
  * Python dictionaries with a fixed key set are modelled as structures of
    `Option`-valued fields; an absent key is `none`.
  * `re.findall` counts are modelled through `runsP`, which lists the
    maximal runs of characters satisfying a predicate; the equivalence with
    the concrete regexes is argued at each use site.

The entity extractor of the source also pulls `email`, `user_name` and
`date` fields; no claim mentions them and they are omitted from the
`Entities` structure (all other fields of the source are modelled).
-/

namespace Rafiki

/-- The six characters of Python's `str.strip` / `str.split` / regex `\s`
whitespace class (space, tab, newline, carriage return, vertical tab,
form feed). -/
def isPySpace (c : Char) : Bool :=
  c == ' ' || c == Char.ofNat 9 || c == Char.ofNat 10 || c == Char.ofNat 13 ||
    c == Char.ofNat 11 || c == Char.ofNat 12

/-- Regex `\d` (ASCII). -/
def pyDigit (c : Char) : Bool := c.isDigit

/-- Regex `\w` (ASCII): letters, digits and underscore. -/
def isWordChar (c : Char) : Bool := c.isAlpha || c.isDigit || c == '_'

/-- Python `str.lower` (ASCII). -/
def pyLower (cs : List Char) : List Char := cs.map Char.toLower

/-- Python `str.strip()`: drop leading and trailing whitespace. -/
def pyStrip (cs : List Char) : List Char :=
  ((cs.dropWhile isPySpace).reverse.dropWhile isPySpace).reverse

/-- `leadMatch needle hay`: `hay` starts with `needle`. -/
def leadMatch : List Char → List Char → Bool
  | [], _ => true
  | _ :: _, [] => false
  | a :: as, b :: bs => a == b && leadMatch as bs

/-- Python substring test `needle in hay`. -/
def pyInStr (needle : List Char) : List Char → Bool
  | [] => leadMatch needle []
  | hay@(_ :: t) => leadMatch needle hay || pyInStr needle t

/-- Worker for `runsP`: `cur` is the current (reversed) run of characters
satisfying `p`. -/
def runsPGo (p : Char → Bool) (cur : List Char) : List Char → List (List Char)
  | [] =>
    match cur with
    | [] => []
    | _ => [cur.reverse]
  | c :: t =>
    if p c then runsPGo p (c :: cur) t
    else
      match cur with
      | [] => runsPGo p [] t
      | _ => cur.reverse :: runsPGo p [] t

/-- Maximal runs of characters satisfying `p`, in order.  `runsP isWordChar`
lists the `\b`-delimited words of a text; `runsP (fun c => !(isPySpace c))`
is Python's `str.split()`. -/
def runsP (p : Char → Bool) (cs : List Char) : List (List Char) :=
  runsPGo p [] cs

/-- Python `str.split()` (split on whitespace, discarding empty pieces). -/
def pySplit (cs : List Char) : List (List Char) :=
  runsP (fun c => !(isPySpace c)) cs

namespace IntentDetector

/- Keyword tables of `IntentDetector`, verbatim from the source. -/

def KRA_NIL_RETURNS_KEYWORDS : List String :=
  ["nil returns", "nil return", "zero returns", "no income",
   "file returns", "file nil", "submit returns", "annual returns",
   "kra returns", "income returns", "tax returns"]

def KRA_PIN_RECOVERY_KEYWORDS : List String :=
  ["recover pin", "reset pin", "forgotten pin", "lost pin",
   "pin recovery", "forgot pin", "pin reset", "new pin",
   "pin help", "pin issue", "pin problem"]

def KRA_PIN_GENERATION_KEYWORDS : List String :=
  ["get pin", "generate pin", "create pin", "new pin",
   "pin application", "apply for pin", "register for pin",
   "kra pin", "pin number"]

def ITAX_KEYWORDS : List String :=
  ["itax", "i-tax", "login", "password", "username",
   "dashboard", "portal", "account", "access itax"]

def GREETING_KEYWORDS : List String :=
  ["hello", "hi", "hey", "good morning", "good afternoon",
   "good evening", "habari", "jambo", "asante", "karibu",
   "how are you", "how are you doing"]

def CONFIRMATION_KEYWORDS : List String :=
  ["yes", "yeah", "yep", "okay", "ok", "sure", "confirmed",
   "proceed", "go ahead", "continue", "ndiyo", "sawa", "kweli"]

/-- Source list `NEGATION_KEYWORDS` (the entry `don't` is spelt with
character 39). -/
def NEGATION_KEYWORDS : List String :=
  ["no", "nope", "cancel", "stop",
   String.mk ['d', 'o', 'n', Char.ofNat 39, 't'], "dont", "back",
   "previous", "hapana", "simu", "usisoma"]

def HELP_KEYWORDS : List String :=
  ["help", "assist", "support", "guide", "explain", "clarify",
   "how", "what", "confused", "stuck", "unclear", "msaada"]

/-- `IntentDetector._matches_keywords`: any keyword occurs in the
normalized message as a substring. -/
def matches_keywords (normalized : List Char) (keywords : List String) : Bool :=
  keywords.any (fun k => pyInStr k.data normalized)

/-- `IntentDetector._normalize_message`: `message.lower().strip()`. -/
def normalize_message (message : List Char) : List Char :=
  pyStrip (pyLower message)

/-- `IntentDetector._detect_primary_intent`: the ordered if/elif cascade of
the source, with the source's confidence constants as exact rationals. -/
def detect_primary_intent (normalized : List Char) : String × ℚ :=
  if matches_keywords normalized KRA_NIL_RETURNS_KEYWORDS then ("kra_nil_returns", 0.95)
  else if matches_keywords normalized KRA_PIN_RECOVERY_KEYWORDS then ("kra_pin_recovery", 0.95)
  else if matches_keywords normalized KRA_PIN_GENERATION_KEYWORDS then ("kra_pin_generation", 0.90)
  else if matches_keywords normalized ITAX_KEYWORDS then ("itax_help", 0.85)
  else if matches_keywords normalized GREETING_KEYWORDS then ("greeting", 0.90)
  else if matches_keywords normalized HELP_KEYWORDS then ("help", 0.85)
  else if matches_keywords normalized CONFIRMATION_KEYWORDS then ("confirm", 0.80)
  else if matches_keywords normalized NEGATION_KEYWORDS then ("negate", 0.80)
  else if (["passport", "id", "license", "permit", "conduct", "birth"] : List String).any
      (fun s => pyInStr s.data normalized) then ("service_inquiry", 0.85)
  else if matches_keywords normalized ["book", "appointment", "schedule", "reserve"] then
    ("book_appointment", 0.80)
  else ("unknown", 0.5)

end IntentDetector

/- Auxiliary facts about substring containment. -/

theorem pyInStr_of_tail (needle : List Char) (c : Char) (t : List Char)
    (h : pyInStr needle t = true) : pyInStr needle (c :: t) = true := by
  simp only [pyInStr, Bool.or_eq_true]
  exact Or.inr h

/-- A text containing `book` contains `ok`. -/
theorem pyInStr_ok_of_book : ∀ s : List Char,
    pyInStr "book".data s = true → pyInStr "ok".data s = true := by
  intro s
  induction s with
  | nil => intro h; simp [pyInStr, leadMatch] at h
  | cons c t ih =>
    intro h
    simp only [pyInStr, Bool.or_eq_true] at h
    rcases h with h | h
    · -- the text starts with the four characters of `book`
      rcases t with _ | ⟨b, t2⟩
      · simp [leadMatch] at h
      rcases t2 with _ | ⟨b2, t3⟩
      · simp [leadMatch] at h
      rcases t3 with _ | ⟨b3, t4⟩
      · simp [leadMatch] at h
      simp only [leadMatch, Bool.and_eq_true, beq_iff_eq] at h
      obtain ⟨hc, hb, hb2, hb3, -⟩ := h
      subst hc; subst hb; subst hb2; subst hb3
      -- text = 'b' :: 'o' :: 'o' :: 'k' :: t4 ; `ok` sits at offset 2
      apply pyInStr_of_tail
      apply pyInStr_of_tail
      simp [pyInStr, leadMatch]
    · exact pyInStr_of_tail _ _ _ (ih h)

namespace IntentDetector

theorem confirmation_matches_of_ok (s : List Char) (h : pyInStr "ok".data s = true) :
    matches_keywords s CONFIRMATION_KEYWORDS = true := by
  simp only [matches_keywords, CONFIRMATION_KEYWORDS, List.any_cons, List.any_nil,
    Bool.or_eq_true]
  tauto

end IntentDetector

/-- C9: an utterance whose normalized text contains `book` is never
classified as `book_appointment`: it contains `ok`, the confirmation rule
precedes the booking rule, so classification yields `confirm` or the
intent of an even earlier rule.  (Consequently the booking rule is
reachable only through `appointment`, `schedule` or `reserve` in a text
without `book`.) -/
theorem C9_book_never_books (s : List Char) (h : pyInStr "book".data s = true) :
    (IntentDetector.detect_primary_intent s).1 ≠ "book_appointment" ∧
      (IntentDetector.detect_primary_intent s).1 ∈
        ["kra_nil_returns", "kra_pin_recovery", "kra_pin_generation", "itax_help",
         "greeting", "help", "confirm"] := by
  have hok : IntentDetector.matches_keywords s IntentDetector.CONFIRMATION_KEYWORDS = true :=
    IntentDetector.confirmation_matches_of_ok s (pyInStr_ok_of_book s h)
  unfold IntentDetector.detect_primary_intent
  split_ifs with h1 h2 h3 h4 h5 h6 _h7 <;> simp_all

/-- Witness for C9 at the concrete utterance `book`. -/
theorem C9_book_never_books_witness :
    (IntentDetector.detect_primary_intent "book".data).1 ≠ "book_appointment" ∧
      (IntentDetector.detect_primary_intent "book".data).1 ∈
        ["kra_nil_returns", "kra_pin_recovery", "kra_pin_generation", "itax_help",
         "greeting", "help", "confirm"] :=
  C9_book_never_books "book".data (by decide)

/-
Entity extraction (`IntentDetector._extract_entities`).

Each `re.search(rx, message)` is modelled as a leftmost scan that tries a
hand-compiled matcher at every start position.  `pySearch` is the scan for
a regex without word-boundary anchors; `pySearchB` additionally threads
the character preceding the current position, which is what `\b` inspects.
-/

/-- `re.search` for an anchor-free regex: try the matcher at each start
position, leftmost first. -/
def pySearch (f : List Char → Option (List Char)) : List Char → Option (List Char)
  | [] => f []
  | cs@(_ :: t) =>
    match f cs with
    | some r => some r
    | none => pySearch f t

/-- `re.search` for a regex opening with `\b`: like `pySearch` but also
passes the character just before the current position (`none` at the start
of the string). -/
def pySearchB (f : Option Char → List Char → Option (List Char)) :
    Option Char → List Char → Option (List Char)
  | prev, [] => f prev []
  | prev, cs@(c :: t) =>
    match f prev cs with
    | some r => some r
    | none => pySearchB f (some c) t

/-- `\d{n}`: split off exactly `n` leading digits. -/
def takeNDigits : Nat → List Char → Option (List Char × List Char)
  | 0, rest => some ([], rest)
  | _ + 1, [] => none
  | n + 1, c :: rest =>
    if pyDigit c then (takeNDigits n rest).map (fun p => (c :: p.1, p.2)) else none

/-- `[17]\d{8}`, the tail of the phone regex after the optional prefix. -/
def phoneTail : List Char → Option (List Char)
  | [] => none
  | c :: rest =>
    if c == '1' || c == '7' then (takeNDigits 8 rest).map (fun p => c :: p.1) else none

/-- One attempt of `(?:\+254|0)?[17]\d{8}` at a fixed position.  The greedy
optional group tries `+254`, then `0`, then the empty string; when the
position starts with `+254` or `0` and the tail fails, the remaining
alternatives cannot match either (`+`/`0` are not in `[17]`), so each
shape is decided by the leading characters alone. -/
def matchPhoneAt (cs : List Char) : Option (List Char) :=
  match cs with
  | '+' :: '2' :: '5' :: '4' :: rest =>
    (phoneTail rest).map (fun m => '+' :: '2' :: '5' :: '4' :: m)
  | '0' :: rest => (phoneTail rest).map (fun m => '0' :: m)
  | _ => phoneTail cs

/-- `\b` seen from the left: the previous character (if any) is not a word
character.  (The next character is a digit in all the regexes below, so
the boundary holds exactly when the previous character is non-word.) -/
def boundaryBefore (prev : Option Char) : Bool :=
  match prev with
  | none => true
  | some c => !(isWordChar c)

/-- `\b` after a digit run: the next character (if any) is not a word
character. -/
def boundaryAfter : List Char → Bool
  | [] => true
  | c :: _ => !(isWordChar c)

/-- One attempt of `\b\d{10}\b` (the KRA-PIN regex) at a fixed position. -/
def matchPinAt (prev : Option Char) (cs : List Char) : Option (List Char) :=
  if boundaryBefore prev then
    match takeNDigits 10 cs with
    | some (ds, rest) => if boundaryAfter rest then some ds else none
    | none => none
  else none

/-- `\d{2}\s*`: two digits plus the following whitespace gap.  The greedy
`\s*` is exact here: a shorter gap would leave a whitespace character
where the next `\d` is required, so only maximal consumption can
succeed. -/
def matchTwoThenGap (cs : List Char) : Option (List Char × List Char) :=
  match takeNDigits 2 cs with
  | some (ds, rest) => some (ds ++ rest.takeWhile isPySpace, rest.dropWhile isPySpace)
  | none => none

/-- Second alternative of the national-ID regex:
`\d{2}\s*\d{2}\s*\d{2}\s*\d{2}`. -/
def matchIdAlt2 (cs : List Char) : Option (List Char) :=
  match matchTwoThenGap cs with
  | none => none
  | some (m1, r1) =>
    match matchTwoThenGap r1 with
    | none => none
    | some (m2, r2) =>
      match matchTwoThenGap r2 with
      | none => none
      | some (m3, r3) =>
        match takeNDigits 2 r3 with
        | none => none
        | some (ds, _) => some (m1 ++ m2 ++ m3 ++ ds)

/-- One attempt of `\b\d{8}\b|\d{2}\s*\d{2}\s*\d{2}\s*\d{2}` (the
national-ID regex) at a fixed position; the first alternative is
preferred. -/
def matchIdAt (prev : Option Char) (cs : List Char) : Option (List Char) :=
  match (if boundaryBefore prev then
           match takeNDigits 8 cs with
           | some (ds, rest) => if boundaryAfter rest then some ds else none
           | none => none
         else none) with
  | some r => some r
  | none => matchIdAlt2 cs

/-- The entity map.  Fields are `none` when the corresponding key is absent
from the Python dict.  The source's `email`, `user_name` and `date` fields
are not referenced by any claim and are omitted. -/
structure Entities where
  phone_number : Option String
  kra_pin : Option String
  national_id : Option String
  service_type : Option String
  requires_pin : Option Bool
  requires_identification : Option Bool
  time_slot : Option String
deriving DecidableEq

/-- The empty entity map `{}`. -/
def emptyEntities : Entities :=
  { phone_number := none, kra_pin := none, national_id := none, service_type := none,
    requires_pin := none, requires_identification := none, time_slot := none }

namespace IntentDetector

/-- `IntentDetector._extract_entities`.  The matched national ID is stored
with its space characters removed (`.replace(' ', '')`, which removes only
`' '`).  The source's guard `len(kra_pin_match.group()) == 10` is always
true for a `\d{10}` match and is dropped. -/
def extract_entities (message : List Char) (intent : String) : Entities :=
  let phone := (pySearch matchPhoneAt message).map String.mk
  let pin := (pySearchB matchPinAt none message).map String.mk
  let idv := (pySearchB matchIdAt none message).map
    (fun m => String.mk (m.filter (fun c => !(c == ' '))))
  let base : Entities :=
    { phone_number := phone, kra_pin := pin, national_id := idv, service_type := none,
      requires_pin := none, requires_identification := none, time_slot := none }
  if intent == "kra_nil_returns" then
    { base with
      service_type := some "nil_returns",
      requires_pin := some (pin == none) }
  else if intent == "kra_pin_recovery" then
    { base with
      service_type := some "pin_recovery",
      requires_identification := some (idv == none) }
  else if intent == "kra_pin_generation" then
    { base with
      service_type := some "pin_generation",
      requires_identification := some (idv == none) }
  else if intent == "book_appointment" then
    if pyInStr "morning".data (pyLower message) || pyInStr "am".data (pyLower message) then
      { base with time_slot := some "morning" }
    else if pyInStr "afternoon".data (pyLower message) || pyInStr "pm".data (pyLower message) then
      { base with time_slot := some "afternoon" }
    else base
  else base

theorem extract_phone_eq (message : List Char) (intent : String) :
    (extract_entities message intent).phone_number =
      (pySearch matchPhoneAt message).map String.mk := by
  unfold extract_entities
  split_ifs <;> rfl

theorem extract_pin_eq (message : List Char) (intent : String) :
    (extract_entities message intent).kra_pin =
      (pySearchB matchPinAt none message).map String.mk := by
  unfold extract_entities
  split_ifs <;> rfl

theorem extract_id_eq (message : List Char) (intent : String) :
    (extract_entities message intent).national_id =
      (pySearchB matchIdAt none message).map
        (fun m => String.mk (m.filter (fun c => !(c == ' ')))) := by
  unfold extract_entities
  split_ifs <;> rfl

end IntentDetector

/-- C1, counterexample: on the utterance `1234567890` (a 10-digit numeric
string as a whole word) the extractor populates `kra_pin` with the literal
and `national_id` with the first eight digits of the same literal — the
two fields are not disjoint for that literal. -/
theorem C1_counterexample :
    (IntentDetector.extract_entities "1234567890".data "unknown").kra_pin =
        some "1234567890" ∧
      (IntentDetector.extract_entities "1234567890".data "unknown").national_id =
        some "12345678" := by
  exact ⟨by decide, by decide⟩

/- Correctness lemmas for the hand-compiled matchers. -/

theorem isSome_map (f : List Char → String) (o : Option (List Char)) :
    (o.map f).isSome = o.isSome := by cases o <;> rfl

theorem word_of_digit (c : Char) (h : pyDigit c = true) : isWordChar c = true := by
  simp only [pyDigit] at h
  simp [isWordChar, h]

theorem not_space_of_digit (c : Char) (h : pyDigit c = true) : isPySpace c = false := by
  cases hs : isPySpace c
  · rfl
  · exfalso
    simp only [isPySpace, Bool.or_eq_true, beq_iff_eq] at hs
    rcases hs with ((((rfl | rfl) | rfl) | rfl) | rfl) | rfl <;> exact absurd h (by decide)

theorem takeNDigits_sound : ∀ (n : Nat) (cs ds rest : List Char),
    takeNDigits n cs = some (ds, rest) →
    cs = ds ++ rest ∧ ds.length = n ∧ ds.all pyDigit = true := by
  intro n
  induction n with
  | zero =>
    intro cs ds rest h
    simp only [takeNDigits, Option.some.injEq, Prod.mk.injEq] at h
    obtain ⟨rfl, rfl⟩ := h
    simp
  | succ n ih =>
    intro cs ds rest h
    match cs with
    | [] => simp [takeNDigits] at h
    | c :: cs' =>
      simp only [takeNDigits] at h
      by_cases hc : pyDigit c = true
      · rw [if_pos hc] at h
        cases ht : takeNDigits n cs' with
        | none => rw [ht] at h; simp at h
        | some p =>
          rw [ht] at h
          simp only [Option.map_some', Option.some.injEq] at h
          obtain ⟨ds', rest'⟩ := p
          simp only [Prod.mk.injEq] at h
          obtain ⟨h1, h2⟩ := h
          obtain ⟨hcs, hlen, hall⟩ := ih cs' ds' rest' ht
          subst h1; subst h2; subst hcs
          refine ⟨rfl, by simp [hlen], by simp [hc, hall]⟩
      · rw [if_neg hc] at h; simp at h

theorem takeNDigits_complete : ∀ (ds rest : List Char), ds.all pyDigit = true →
    takeNDigits ds.length (ds ++ rest) = some (ds, rest) := by
  intro ds
  induction ds with
  | nil => intro rest _; simp [takeNDigits]
  | cons c t ih =>
    intro rest h
    simp only [List.all_cons, Bool.and_eq_true] at h
    simp only [List.length_cons, List.cons_append, takeNDigits, if_pos h.1, List.append_eq,
      ih rest h.2, Option.map_some']

/-- A full match of `[17]\d{8}` (the phone regex after its optional
prefix). -/
def phoneTailShape : List Char → Bool
  | [] => false
  | c :: ds => (c == '1' || c == '7') && ds.length == 8 && ds.all pyDigit

/-- A full match of the phone regex `(?:\+254|0)?[17]\d{8}`: an optional
prefix `+254` or `0`, then `1` or `7`, then eight digits. -/
def mobileShape (m : List Char) : Bool :=
  match m with
  | '+' :: '2' :: '5' :: '4' :: rest => phoneTailShape rest
  | '0' :: rest => phoneTailShape rest
  | rest => phoneTailShape rest

theorem phoneTail_sound (cs m : List Char) (h : phoneTail cs = some m) :
    phoneTailShape m = true ∧ ∃ r, cs = m ++ r := by
  match cs with
  | [] => simp [phoneTail] at h
  | c :: rest =>
    simp only [phoneTail] at h
    by_cases hc : (c == '1' || c == '7') = true
    · rw [if_pos hc] at h
      cases ht : takeNDigits 8 rest with
      | none => rw [ht] at h; simp at h
      | some p =>
        rw [ht] at h
        simp only [Option.map_some', Option.some.injEq] at h
        obtain ⟨ds, rest'⟩ := p
        obtain ⟨hrest, hlen, hall⟩ := takeNDigits_sound 8 rest ds rest' ht
        subst h; subst hrest
        constructor
        · simp [phoneTailShape, hc, hlen, hall]
        · exact ⟨rest', rfl⟩
    · rw [if_neg hc] at h; simp at h

theorem phoneTail_complete (m : List Char) (h : phoneTailShape m = true) (r : List Char) :
    (phoneTail (m ++ r)).isSome = true := by
  match m with
  | [] => simp [phoneTailShape] at h
  | c :: ds =>
    simp only [phoneTailShape, Bool.and_eq_true, beq_iff_eq] at h
    obtain ⟨⟨hc, hlen⟩, hall⟩ := h
    have ht := takeNDigits_complete ds r hall
    rw [hlen] at ht
    simp [phoneTail, hc, ht]

theorem matchPhoneAt_sound (cs m : List Char) (h : matchPhoneAt cs = some m) :
    mobileShape m = true ∧ ∃ r, cs = m ++ r := by
  unfold matchPhoneAt at h
  split at h
  · -- cs = '+' :: '2' :: '5' :: '4' :: rest
    rename_i rest
    cases hp : phoneTail rest with
    | none => rw [hp] at h; simp at h
    | some mt =>
      rw [hp] at h
      simp only [Option.map_some', Option.some.injEq] at h
      obtain ⟨hshape, r, hr⟩ := phoneTail_sound rest mt hp
      subst h
      refine ⟨by simpa [mobileShape] using hshape, r, by rw [hr]; simp⟩
  · -- cs = '0' :: rest
    rename_i rest
    cases hp : phoneTail rest with
    | none => rw [hp] at h; simp at h
    | some mt =>
      rw [hp] at h
      simp only [Option.map_some', Option.some.injEq] at h
      obtain ⟨hshape, r, hr⟩ := phoneTail_sound rest mt hp
      subst h
      refine ⟨?_, r, by rw [hr]; simp⟩
      match mt, hshape with
      | [], hshape => simp [phoneTailShape] at hshape
      | c :: ds, hshape => exact hshape
  · -- default arm: no prefix
    obtain ⟨hshape, r, hr⟩ := phoneTail_sound cs m h
    refine ⟨?_, r, hr⟩
    match m, hshape with
    | [], hshape => simp [phoneTailShape] at hshape
    | c :: ds, hshape =>
      have hc : c = '1' ∨ c = '7' := by
        simp only [phoneTailShape, Bool.and_eq_true, Bool.or_eq_true, beq_iff_eq] at hshape
        tauto
      rcases hc with rfl | rfl
      · exact hshape
      · exact hshape

theorem matchPhoneAt_complete (m : List Char) (h : mobileShape m = true) (r : List Char) :
    (matchPhoneAt (m ++ r)).isSome = true := by
  unfold mobileShape at h
  split at h
  · rename_i rest
    have hp := phoneTail_complete rest h r
    obtain ⟨v, hv⟩ := Option.isSome_iff_exists.mp hp
    simp [matchPhoneAt, hv]
  · rename_i rest
    have hp := phoneTail_complete rest h r
    obtain ⟨v, hv⟩ := Option.isSome_iff_exists.mp hp
    simp [matchPhoneAt, hv]
  · match m, h with
    | [], h => simp [phoneTailShape] at h
    | c :: ds, h =>
      have hc : c = '1' ∨ c = '7' := by
        simp only [phoneTailShape, Bool.and_eq_true, Bool.or_eq_true, beq_iff_eq] at h
        tauto
      rcases hc with rfl | rfl
      · exact phoneTail_complete _ h r
      · exact phoneTail_complete _ h r

theorem pySearch_isSome_iff (f : List Char → Option (List Char)) (hnil : f [] = none) :
    ∀ cs : List Char, (pySearch f cs).isSome = true ↔
      ∃ a b, cs = a ++ b ∧ (f b).isSome = true := by
  intro cs
  induction cs with
  | nil =>
    simp only [pySearch, hnil, Option.isSome_none, Bool.false_eq_true, false_iff]
    rintro ⟨a, b, hab, hb⟩
    have : b = [] := (List.append_eq_nil.mp hab.symm).2
    subst this
    rw [hnil] at hb
    simp at hb
  | cons c t ih =>
    constructor
    · intro h
      simp only [pySearch] at h
      cases hf : f (c :: t) with
      | some r => exact ⟨[], c :: t, rfl, by simp [hf]⟩
      | none =>
        rw [hf] at h
        obtain ⟨a, b, hab, hb⟩ := ih.mp h
        exact ⟨c :: a, b, by rw [hab]; rfl, hb⟩
    · rintro ⟨a, b, hab, hb⟩
      simp only [pySearch]
      cases hf : f (c :: t) with
      | some r => simp
      | none =>
        cases a with
        | nil =>
          simp only [List.nil_append] at hab
          rw [← hab, hf] at hb
          simp at hb
        | cons x a' =>
          simp only [List.cons_append, List.cons.injEq] at hab
          exact ih.mpr ⟨a', b, hab.2, hb⟩

/-- C5, spec-side predicate, modelled from the claim's words: the text
contains a 10-digit number prefixed `07` or `01`, or `+254` followed by
nine digits whose first is `1` or `7`. -/
def specMobileAt (cs : List Char) : Bool :=
  match cs with
  | '0' :: c :: rest => (c == '7' || c == '1') && (takeNDigits 8 rest).isSome
  | '+' :: '2' :: '5' :: '4' :: c :: rest => (c == '1' || c == '7') && (takeNDigits 8 rest).isSome
  | _ => false

/-- The spec-side containment predicate for C5. -/
def specContainsKenyanMobile : List Char → Bool
  | [] => false
  | cs@(_ :: t) => specMobileAt cs || specContainsKenyanMobile t

/-- C5, counterexample: the bare 9-digit utterance `712345678` carries
neither of the two spec shapes (it has no `0` and no `+` at all), yet the
extractor populates `phone_number` with it, because the prefix of the
source regex `(?:\+254|0)?[17]\d{8}` is optional. -/
theorem C5_counterexample :
    (IntentDetector.extract_entities "712345678".data "unknown").phone_number =
        some "712345678" ∧
      specContainsKenyanMobile "712345678".data = false :=
  ⟨by decide, by decide⟩

/-- C5 amended: `phone_number` is populated exactly when the text contains
a substring of the shape: optional prefix `+254` or `0`, then a digit `1`
or `7`, then eight digits.  The optional prefix means a bare nine-digit
sequence starting with `1` or `7` also qualifies, so the spec's two
prefixed shapes are not exhaustive. -/
theorem C5_amended (cs : List Char) (intent : String) :
    (IntentDetector.extract_entities cs intent).phone_number.isSome = true ↔
      ∃ a m b, cs = a ++ m ++ b ∧ mobileShape m = true := by
  rw [IntentDetector.extract_phone_eq, isSome_map,
    pySearch_isSome_iff matchPhoneAt rfl cs]
  constructor
  · rintro ⟨a, b, rfl, hb⟩
    obtain ⟨m, hm⟩ := Option.isSome_iff_exists.mp hb
    obtain ⟨hshape, r, hr⟩ := matchPhoneAt_sound b m hm
    exact ⟨a, m, r, by rw [hr, List.append_assoc], hshape⟩
  · rintro ⟨a, m, b, rfl, hm⟩
    exact ⟨a, m ++ b, by rw [List.append_assoc], matchPhoneAt_complete m hm b⟩

/- Leftmost search with boundary context: existence of a matching position
implies the search succeeds. -/

/-- The character immediately before the current position, given the
position is reached by consuming `a` after an initial context `prev`:
the last character of `a`, or `prev` when `a` is empty. -/
def lastD (prev : Option Char) : List Char → Option Char
  | [] => prev
  | c :: t => lastD (some c) t

theorem lastD_nil (prev : Option Char) : lastD prev [] = prev := rfl

theorem lastD_cons (prev : Option Char) (x : Char) (a : List Char) :
    lastD prev (x :: a) = lastD (some x) a := rfl

theorem pySearchB_isSome_of (f : Option Char → List Char → Option (List Char)) :
    ∀ (a : List Char) (prev : Option Char) (b : List Char),
      (f (lastD prev a) b).isSome = true → (pySearchB f prev (a ++ b)).isSome = true := by
  intro a
  induction a with
  | nil =>
    intro prev b h
    rw [lastD_nil] at h
    cases b with
    | nil => simpa [pySearchB] using h
    | cons c t =>
      obtain ⟨r, hr⟩ := Option.isSome_iff_exists.mp h
      simp [pySearchB, hr]
  | cons x a' ih =>
    intro prev b h
    rw [lastD_cons] at h
    simp only [List.cons_append, pySearchB]
    cases hf : f prev (x :: (a' ++ b)) with
    | some r => simp
    | none => exact ih (some x) b h

/-- A 10-digit numeric string occurring in the text as a whole word
(`\b`-delimited on both sides). -/
def containsTenDigitWord (cs : List Char) : Prop :=
  ∃ a d b, cs = a ++ d ++ b ∧ d.length = 10 ∧ d.all pyDigit = true ∧
    boundaryBefore (lastD none a) = true ∧ boundaryAfter b = true

theorem matchIdAt_digits (prev : Option Char)
    (c1 c2 c3 c4 c5 c6 c7 c8 c9 c10 : Char) (b : List Char)
    (h1 : pyDigit c1 = true) (h2 : pyDigit c2 = true) (h3 : pyDigit c3 = true)
    (h4 : pyDigit c4 = true) (h5 : pyDigit c5 = true) (h6 : pyDigit c6 = true)
    (h7 : pyDigit c7 = true) (h8 : pyDigit c8 = true) (h9 : pyDigit c9 = true) :
    (matchIdAt prev
      (c1 :: c2 :: c3 :: c4 :: c5 :: c6 :: c7 :: c8 :: c9 :: c10 :: b)).isSome = true := by
  have t1 : takeNDigits 2 (c1 :: c2 :: c3 :: c4 :: c5 :: c6 :: c7 :: c8 :: c9 :: c10 :: b) =
      some ([c1, c2], c3 :: c4 :: c5 :: c6 :: c7 :: c8 :: c9 :: c10 :: b) :=
    takeNDigits_complete [c1, c2] _ (by simp [h1, h2])
  have t2 : takeNDigits 2 (c3 :: c4 :: c5 :: c6 :: c7 :: c8 :: c9 :: c10 :: b) =
      some ([c3, c4], c5 :: c6 :: c7 :: c8 :: c9 :: c10 :: b) :=
    takeNDigits_complete [c3, c4] _ (by simp [h3, h4])
  have t3 : takeNDigits 2 (c5 :: c6 :: c7 :: c8 :: c9 :: c10 :: b) =
      some ([c5, c6], c7 :: c8 :: c9 :: c10 :: b) :=
    takeNDigits_complete [c5, c6] _ (by simp [h5, h6])
  have t4 : takeNDigits 2 (c7 :: c8 :: c9 :: c10 :: b) =
      some ([c7, c8], c9 :: c10 :: b) :=
    takeNDigits_complete [c7, c8] _ (by simp [h7, h8])
  have g1 : matchTwoThenGap (c1 :: c2 :: c3 :: c4 :: c5 :: c6 :: c7 :: c8 :: c9 :: c10 :: b) =
      some ([c1, c2], c3 :: c4 :: c5 :: c6 :: c7 :: c8 :: c9 :: c10 :: b) := by
    simp [matchTwoThenGap, t1, List.takeWhile_cons_of_neg, List.dropWhile_cons_of_neg,
      not_space_of_digit c3 h3]
  have g2 : matchTwoThenGap (c3 :: c4 :: c5 :: c6 :: c7 :: c8 :: c9 :: c10 :: b) =
      some ([c3, c4], c5 :: c6 :: c7 :: c8 :: c9 :: c10 :: b) := by
    simp [matchTwoThenGap, t2, List.takeWhile_cons_of_neg, List.dropWhile_cons_of_neg,
      not_space_of_digit c5 h5]
  have g3 : matchTwoThenGap (c5 :: c6 :: c7 :: c8 :: c9 :: c10 :: b) =
      some ([c5, c6], c7 :: c8 :: c9 :: c10 :: b) := by
    simp [matchTwoThenGap, t3, List.takeWhile_cons_of_neg, List.dropWhile_cons_of_neg,
      not_space_of_digit c7 h7]
  have halt2 : matchIdAlt2 (c1 :: c2 :: c3 :: c4 :: c5 :: c6 :: c7 :: c8 :: c9 :: c10 :: b) =
      some ([c1, c2] ++ [c3, c4] ++ [c5, c6] ++ [c7, c8]) := by
    simp only [matchIdAlt2, g1, g2, g3, t4]
  have t8 : takeNDigits 8 (c1 :: c2 :: c3 :: c4 :: c5 :: c6 :: c7 :: c8 :: c9 :: c10 :: b) =
      some ([c1, c2, c3, c4, c5, c6, c7, c8], c9 :: c10 :: b) :=
    takeNDigits_complete [c1, c2, c3, c4, c5, c6, c7, c8] _
      (by simp [h1, h2, h3, h4, h5, h6, h7, h8])
  have hw9 : isWordChar c9 = true := word_of_digit c9 h9
  cases hbb : boundaryBefore prev
  · simp [matchIdAt, hbb, halt2]
  · simp [matchIdAt, hbb, t8, boundaryAfter, hw9, halt2]

/-- C1, amended: an utterance containing a 10-digit numeric string as a
whole word populates `kra_pin` (with the first such match), but it also
always populates `national_id`, because the second alternative of the
national-ID regex (`\d{2}\s*\d{2}\s*\d{2}\s*\d{2}`) has no word boundary
and matches eight consecutive digits inside the 10-digit run. -/
theorem C1_amended (cs : List Char) (intent : String) (h : containsTenDigitWord cs) :
    (IntentDetector.extract_entities cs intent).kra_pin.isSome = true ∧
      (IntentDetector.extract_entities cs intent).national_id.isSome = true := by
  obtain ⟨a, d, b, rfl, hlen, hall, hbb, hba⟩ := h
  constructor
  · rw [IntentDetector.extract_pin_eq, isSome_map, List.append_assoc]
    apply pySearchB_isSome_of
    have ht : takeNDigits 10 (d ++ b) = some (d, b) := by
      have := takeNDigits_complete d b hall
      rwa [hlen] at this
    simp [matchPinAt, hbb, ht, hba]
  · rw [IntentDetector.extract_id_eq, isSome_map, List.append_assoc]
    apply pySearchB_isSome_of
    rcases d with _ | ⟨c1, d⟩
    · simp only [List.length_nil] at hlen; omega
    rcases d with _ | ⟨c2, d⟩
    · simp only [List.length_cons, List.length_nil] at hlen; omega
    rcases d with _ | ⟨c3, d⟩
    · simp only [List.length_cons, List.length_nil] at hlen; omega
    rcases d with _ | ⟨c4, d⟩
    · simp only [List.length_cons, List.length_nil] at hlen; omega
    rcases d with _ | ⟨c5, d⟩
    · simp only [List.length_cons, List.length_nil] at hlen; omega
    rcases d with _ | ⟨c6, d⟩
    · simp only [List.length_cons, List.length_nil] at hlen; omega
    rcases d with _ | ⟨c7, d⟩
    · simp only [List.length_cons, List.length_nil] at hlen; omega
    rcases d with _ | ⟨c8, d⟩
    · simp only [List.length_cons, List.length_nil] at hlen; omega
    rcases d with _ | ⟨c9, d⟩
    · simp only [List.length_cons, List.length_nil] at hlen; omega
    rcases d with _ | ⟨c10, d⟩
    · simp only [List.length_cons, List.length_nil] at hlen; omega
    rcases d with _ | ⟨c11, d⟩
    · simp only [List.all_cons, List.all_nil, Bool.and_eq_true] at hall
      obtain ⟨h1, h2, h3, h4, h5, h6, h7, h8, h9, h10, -⟩ := hall
      exact matchIdAt_digits _ c1 c2 c3 c4 c5 c6 c7 c8 c9 c10 b
        h1 h2 h3 h4 h5 h6 h7 h8 h9
    · simp only [List.length_cons] at hlen; omega

/-- Witness for C1 amended at the utterance `1234567890`. -/
theorem C1_amended_witness :
    (IntentDetector.extract_entities "1234567890".data "unknown").kra_pin.isSome = true ∧
      (IntentDetector.extract_entities "1234567890".data "unknown").national_id.isSome =
        true :=
  C1_amended "1234567890".data "unknown"
    ⟨[], "1234567890".data, [], by decide, by decide, by decide, by decide, by decide⟩

/-
The language service (`LanguageDetector` in
`backend/services/language_service.py`).
-/

namespace LanguageDetector

def KISWAHILI_VOCABULARY : List String :=
  ["habari", "asante", "karibu", "pole", "sawa", "ndiyo", "hapana",
   "tafadhali", "rafiki", "msaada", "tupo", "sana", "kwa", "na", "ni",
   "kupata", "kusaidia", "kufanya", "kufikia", "kuenda", "kujibu",
   "kufungua", "kuandika", "kuanguka", "kufa", "kutegemea",
   "mtu", "watu", "kitu", "vitu", "sehemu", "mahali",
   "asubuhi", "alasiri", "jioni", "usiku", "siku", "wiki", "mwezi",
   "mwaka", "muda", "wakati", "saa", "dakika", "sekunde",
   "namba", "idadi", "kila", "moja", "mbili", "tatu", "nne",
   "kra", "pin", "itax", "serikali", "huduma", "fomu", "karatasi",
   "hata", "kama", "lakini", "ingawa", "baada", "kabla",
   "kutoka", "kwenda", "huko", "hapa", "hapo", "sini", "juu",
   "chini", "mbali", "jibu", "swali", "ujumbe", "ujumuika"]

def ENGLISH_VOCABULARY : List String :=
  ["hello", "thank", "please", "help", "friend", "nil", "returns",
   "file", "password", "login", "submit", "form", "booking",
   "appointment", "service", "government", "portal", "access",
   "recovery", "registration", "confirmation", "sms"]

/-- `LanguageDetector._normalize_word`:
`re.sub(r'[^\w]', '', word.lower())`. -/
def normalize_word (w : List Char) : List Char :=
  (pyLower w).filter isWordChar

/-- The class `[a-z]`. -/
def isLowerAZ (c : Char) : Bool := 'a' ≤ c && c ≤ 'z'

/-- The classes `[aeiou]` and `[iaeou]` (the same character set). -/
def isVowel (c : Char) : Bool :=
  c == 'a' || c == 'e' || c == 'i' || c == 'o' || c == 'u'

/-- Matcher for `\b[a-z]{2,}[iaeou][aeiou]+` within one `\b`-delimited
word run: some `k ≥ 2` has the first `k` characters lowercase letters and
the characters at offsets `k`, `k+1` vowels.  (A match can only start at a
run start, where `\b` holds before a word character.) -/
def pat1Scan : List Char → Nat → Bool
  | a :: b :: rest, k =>
    if 2 ≤ k && isVowel a && isVowel b then true
    else if isLowerAZ a then pat1Scan (b :: rest) (k + 1)
    else false
  | _, _ => false

/-- `re.search(r'\b[a-z]{2,}[iaeou][aeiou]+', text)` as a Boolean. -/
def pat1 (text : List Char) : Bool :=
  (runsP isWordChar text).any (fun r => pat1Scan r 0)

/-- `re.search(r'\bk[ua]\w+', text)`: a word run of length ≥ 3 starting
`ku` or `ka`. -/
def pat2 (text : List Char) : Bool :=
  (runsP isWordChar text).any (fun r =>
    match r with
    | 'k' :: x :: _ :: _ => x == 'u' || x == 'a'
    | _ => false)

/-- `re.search(r'\bm[ao]\w+', text)`: a word run of length ≥ 3 starting
`ma` or `mo`. -/
def pat3 (text : List Char) : Bool :=
  (runsP isWordChar text).any (fun r =>
    match r with
    | 'm' :: x :: _ :: _ => x == 'a' || x == 'o'
    | _ => false)

/-- `re.search(r'\b(ni|na|ja|li|tu|wa)\w+', text)`: a word run of length
≥ 3 starting with one of the six tense markers. -/
def pat4 (text : List Char) : Bool :=
  (runsP isWordChar text).any (fun r =>
    match r with
    | a :: b :: _ :: _ =>
      (a == 'n' && (b == 'i' || b == 'a')) || (a == 'j' && b == 'a') ||
        (a == 'l' && b == 'i') || (a == 't' && b == 'u') || (a == 'w' && b == 'a')
    | _ => false)

def SW_PHRASES : List String :=
  ["nataka", "karibu", "asante", "tafadhali", "je", "nini",
   "wakati gani", "siku gani", "wapi", "nani", "lini"]

/-- `LanguageDetector._score_kiswahili`. -/
def score_kiswahili (text : List Char) : ℚ :=
  let words := pySplit text
  let swWordCount : ℚ :=
    ((words.filter (fun w =>
      (KISWAHILI_VOCABULARY.map String.data).contains (normalize_word w))).length : ℚ)
  let base : ℚ := if 0 < words.length then swWordCount / (words.length : ℚ) * 0.5 else 0
  let patternMatches : ℚ :=
    (([pat1 text, pat2 text, pat3 text, pat4 text].filter (fun b => b)).length : ℚ)
  let s1 := base + patternMatches / 4 * 0.3
  let phraseCount : ℚ := ((SW_PHRASES.filter (fun p => pyInStr p.data text)).length : ℚ)
  min (s1 + min (phraseCount * 0.1) 0.2) 1

def EN_PHRASES : List String :=
  ["file nil", "kra pin", "recover pin", "itax", "help me",
   "how to", "what is", "where is", "when can", "do i"]

def EN_FUNCTION_WORDS : List String :=
  ["the", "a", "an", "is", "are", "be", "been", "have", "has", "do", "does", "did"]

/-- Matcher for the contraction regex `[a-z]+'[a-z]+` (the apostrophe is
character 39): a lowercase letter, an apostrophe and a lowercase letter in
three consecutive positions. -/
def contractionScan : List Char → Bool
  | a :: q :: b :: rest =>
    (isLowerAZ a && q == Char.ofNat 39 && isLowerAZ b) || contractionScan (q :: b :: rest)
  | _ => false

/-- `LanguageDetector._score_english`.  The function-word regex
`\b(the|a|an|...)\b` holds exactly when some `\b`-delimited word run
equals one of the alternatives. -/
def score_english (text : List Char) : ℚ :=
  let words := pySplit text
  let enWordCount : ℚ :=
    ((words.filter (fun w =>
      (ENGLISH_VOCABULARY.map String.data).contains (normalize_word w))).length : ℚ)
  let base : ℚ := if 0 < words.length then enWordCount / (words.length : ℚ) * 0.4 else 0
  let s1 := base + (if contractionScan text then 0.2 else 0)
  let s2 := s1 +
    (if (runsP isWordChar text).any (fun r => (EN_FUNCTION_WORDS.map String.data).contains r)
     then 0.3 else 0)
  let phraseCount : ℚ := ((EN_PHRASES.filter (fun p => pyInStr p.data text)).length : ℚ)
  min (s2 + min (phraseCount * 0.1) 0.2) 1

/-- The caller-owned session context read by `LanguageDetector.detect`. -/
structure SessionContext where
  preferred_language : Option String
deriving DecidableEq

/-- The scoring path of `LanguageDetector.detect` (no session
preference). -/
def detectScore (text : List Char) : String × ℚ :=
  let normalized_text := pyStrip (pyLower text)
  let sw_score := score_kiswahili normalized_text
  let en_score := score_english normalized_text
  if sw_score > en_score + 0.2 then
    ("sw", min (if 0 < sw_score + en_score then sw_score / (sw_score + en_score) else 0.6) 1)
  else
    ("en", min (if 0 < sw_score + en_score then en_score / (sw_score + en_score) else 0.6) 1)

/-- `LanguageDetector.detect`.  The short-circuit mirrors
`session_context and session_context.get('preferred_language')`: a present
and truthy (non-empty) value is returned verbatim with confidence `1.0`;
an absent context, a context without the key, and an empty-string value
all fall through to scoring, exactly as the falsy cases do in the source.
The body of the `try` block is total in this model, so the `except`
branch returning `('en', 0.5)` is dead code. -/
def detect (text : List Char) (session_context : Option SessionContext) : String × ℚ :=
  match session_context with
  | some ctx =>
    match ctx.preferred_language with
    | some v => if v ≠ "" then (v, 1) else detectScore text
    | none => detectScore text
  | none => detectScore text

end LanguageDetector

/-- C10: for every text and every session context carrying a truthy
`preferred_language` value `v`, `detect` returns `(v, 1.0)` with `v`
passed through verbatim — also for values outside the two supported tags,
so the language-tag invariant is not enforced at this entry point. -/
theorem C10_preferred_passthrough (text : List Char)
    (ctx : LanguageDetector.SessionContext) (v : String)
    (hv : ctx.preferred_language = some v) (hne : v ≠ "") :
    LanguageDetector.detect text (some ctx) = (v, 1) := by
  unfold LanguageDetector.detect
  simp [hv, hne]

/-- Witness for C10 with the unsupported tag `fr`. -/
theorem C10_preferred_passthrough_witness :
    LanguageDetector.detect "hello".data (some ⟨some "fr"⟩) = ("fr", 1) :=
  C10_preferred_passthrough "hello".data ⟨some "fr"⟩ "fr" rfl (by decide)

theorem score_kiswahili_nil : LanguageDetector.score_kiswahili [] = 0 := by
  have hws : pySplit ([] : List Char) = [] := by decide
  have hpat : ([LanguageDetector.pat1 [], LanguageDetector.pat2 [], LanguageDetector.pat3 [],
      LanguageDetector.pat4 []].filter (fun b => b)).length = 0 := by decide
  have hph : ((LanguageDetector.SW_PHRASES.filter
      (fun p => pyInStr p.data ([] : List Char)))).length = 0 := by decide
  simp only [LanguageDetector.score_kiswahili, hws, hpat, hph, List.filter_nil,
    List.length_nil]
  norm_num [min_def]

theorem score_english_nil : LanguageDetector.score_english [] = 0 := by
  have hws : pySplit ([] : List Char) = [] := by decide
  have hcon : LanguageDetector.contractionScan [] = false := by decide
  have hfw : (runsP isWordChar []).any
      (fun r => (LanguageDetector.EN_FUNCTION_WORDS.map String.data).contains r) = false := by
    decide
  have hph : ((LanguageDetector.EN_PHRASES.filter
      (fun p => pyInStr p.data ([] : List Char)))).length = 0 := by decide
  simp only [LanguageDetector.score_english, hws, hcon, hfw, hph, List.filter_nil,
    List.length_nil, Bool.false_eq_true, if_false]
  norm_num [min_def]

/-- Evaluation of the scoring path on the empty normalized text. -/
theorem detectScore_nil : LanguageDetector.detectScore [] = ("en", 0.6) := by
  have hn : pyStrip (pyLower ([] : List Char)) = [] := rfl
  simp only [LanguageDetector.detectScore, hn, score_kiswahili_nil, score_english_nil]
  norm_num [min_def]

/-- C4, counterexample: on the empty utterance (whitespace-only) `detect`
returns confidence 0.6 — the zero-score default of the source — not
0.5. -/
theorem C4_counterexample :
    LanguageDetector.detect "".data none = ("en", 0.6) ∧
      LanguageDetector.detect "".data none ≠ ("en", 0.5) := by
  have h : LanguageDetector.detect "".data none = ("en", 0.6) := detectScore_nil
  refine ⟨h, ?_⟩
  rw [h]
  intro hc
  rw [Prod.mk.injEq] at hc
  have h2 := hc.2
  norm_num at h2

theorem toLower_space (c : Char) (h : isPySpace c = true) : Char.toLower c = c := by
  simp only [isPySpace, Bool.or_eq_true, beq_iff_eq] at h
  rcases h with ((((rfl | rfl) | rfl) | rfl) | rfl) | rfl <;> decide

theorem pyLower_spaces : ∀ cs : List Char, (∀ c ∈ cs, isPySpace c = true) →
    pyLower cs = cs := by
  intro cs
  induction cs with
  | nil => intro _; rfl
  | cons c t ih =>
    intro h
    simp only [pyLower, List.map_cons]
    rw [toLower_space c (h c (by simp))]
    have := ih (fun x hx => h x (by simp [hx]))
    simp only [pyLower] at this
    rw [this]

theorem pyStrip_spaces (cs : List Char) (h : ∀ c ∈ cs, isPySpace c = true) :
    pyStrip cs = [] := by
  have hd : cs.dropWhile isPySpace = [] := by
    induction cs with
    | nil => rfl
    | cons c t ih =>
      simp only [List.dropWhile, h c (by simp)]
      exact ih (fun x hx => h x (by simp [hx]))
  simp [pyStrip, hd]

/-- C4 amended: for every whitespace-only utterance (the empty one
included) and no pinned session language, `detect` returns `en` with
confidence exactly 0.6 — both scores are zero and the source's
zero-denominator default is 0.6, not the 0.5 claimed. -/
theorem C4_amended (cs : List Char) (h : ∀ c ∈ cs, isPySpace c = true) :
    LanguageDetector.detect cs none = ("en", 0.6) := by
  have hlow : pyLower cs = cs := pyLower_spaces cs h
  have hnorm : pyStrip (pyLower cs) = [] := by rw [hlow]; exact pyStrip_spaces cs h
  show LanguageDetector.detectScore cs = ("en", 0.6)
  simp only [LanguageDetector.detectScore, hnorm, score_kiswahili_nil, score_english_nil]
  norm_num [min_def]

/-- Witness for C4 amended at three spaces. -/
theorem C4_amended_witness : LanguageDetector.detect "   ".data none = ("en", 0.6) :=
  C4_amended "   ".data (by decide)

/-
The pipeline of `IntentDetector.detect`: language heuristic, workflow
table, suggestions, response flags, and the `try/except` orchestration.
-/

namespace IntentDetector

/-- `IntentDetector._detect_language`.  The three `re.findall` counts are:
words (`\b`-delimited, case-insensitively lowered) equal to one of the
eight short Kiswahili function words; words equal to one of the eight
common Kiswahili words; and maximal runs of vowels of length ≥ 2 (the
greedy `[aeiou]{2,}` consumes a whole maximal run, so each such run is
exactly one match). -/
def detect_language (message : List Char) : String :=
  let runs := runsP isWordChar message
  let c1 := (runs.filter (fun r =>
    ((["na", "kwa", "ni", "wa", "ja", "za", "ta", "ka"] : List String).map String.data).contains
      (pyLower r))).length
  let c2 := (runs.filter (fun r =>
    ((["rafiki", "habari", "asante", "pole", "sawa", "ndiyo", "hapana", "tafadhali"] :
        List String).map String.data).contains (pyLower r))).length
  let c3 := ((runsP (fun c => LanguageDetector.isVowel (Char.toLower c)) message).filter
    (fun r => 2 ≤ r.length)).length
  if 3 < c1 + c2 + c3 then "sw" else "en"

/-- `WorkflowDescriptor` as built by `IntentDetector._get_workflow`. -/
structure Workflow where
  name : String
  steps : List String
  urls : List String
  requires_authentication : Bool
  sms_confirmation : Bool
deriving DecidableEq

/-- `IntentDetector._get_workflow`; `entities` and `session_context` are
accepted but not branched on, as in the source. -/
def get_workflow {σ : Type} (intent : String) (entities : Entities)
    (session_context : Option σ) : Option Workflow :=
  if intent == "kra_nil_returns" then
    some { name := "KRA Nil Returns Filing",
           steps := ["Confirm user has KRA PIN", "Explain nil returns eligibility",
             "Navigate to iTax portal", "Guide through login",
             "Guide through nil returns form", "Confirm submission",
             "Offer SMS confirmation"],
           urls := ["https://accounts.ecitizen.go.ke/en/services/itax"],
           requires_authentication := true, sms_confirmation := true }
  else if intent == "kra_pin_recovery" then
    some { name := "KRA PIN Recovery",
           steps := ["Verify user identity (national ID)", "Explain recovery process",
             "Ask for registered email/phone", "Guide through recovery link",
             "Confirm new PIN delivery", "Offer SMS confirmation"],
           urls := ["https://accounts.ecitizen.go.ke/en/services/pin-recovery"],
           requires_authentication := false, sms_confirmation := true }
  else if intent == "kra_pin_generation" then
    some { name := "KRA PIN Generation",
           steps := ["Verify user identity (national ID)", "Explain PIN requirements",
             "Navigate to iTax registration", "Guide through registration form",
             "Confirm PIN assignment", "Offer SMS PIN confirmation"],
           urls := ["https://accounts.ecitizen.go.ke/en/services/pin-registration"],
           requires_authentication := false, sms_confirmation := true }
  else if intent == "itax_help" then
    some { name := "iTax Portal Assistance",
           steps := ["Determine specific issue", "Provide login guidance",
             "Offer step-by-step help", "Confirm issue resolved"],
           urls := ["https://itax.kra.go.ke"],
           requires_authentication := true, sms_confirmation := false }
  else if intent == "book_appointment" then
    some { name := "Appointment Booking",
           steps := ["Confirm service type", "Verify user identity",
             "Confirm preferred date/time", "Take contact details",
             "Send SMS confirmation"],
           urls := [],
           requires_authentication := false, sms_confirmation := true }
  else none

/-- `IntentDetector._get_suggestions`.  The `workflow` argument is accepted
but unused, as in the source. -/
def get_suggestions (intent : String) (workflow : Option Workflow) : List String :=
  if intent == "kra_nil_returns" then
    ["Guide me through filing nil returns", "Open iTax portal",
     "Do I qualify for nil returns?"]
  else if intent == "kra_pin_recovery" then
    ["Help me recover my PIN", "Send recovery link to my email",
     "Explain the recovery process"]
  else if intent == "kra_pin_generation" then
    ["Apply for a new KRA PIN", "What do I need to get a PIN?",
     "Start the registration process"]
  else if intent == "greeting" then
    ["File nil returns", "Recover my KRA PIN", "Get a KRA PIN", "Book an appointment"]
  else if intent == "help" then
    ["Can you help me navigate?", "What services are available?", "Go back to main menu"]
  else
    ["Can you clarify that?", "Tell me more", "Try again"]

/-- `IntentDetector._needs_confirmation`. -/
def needs_confirmation (intent : String) : Bool :=
  intent == "book_appointment" || intent == "kra_nil_returns" ||
    intent == "kra_pin_recovery" || intent == "kra_pin_generation"

/-- `IntentDetector._is_conversational`. -/
def is_conversational (intent : String) : Bool :=
  intent == "greeting" || intent == "help" || intent == "unknown" ||
    intent == "service_inquiry" || intent == "clarify"

/-- The aggregated result dict of `IntentDetector.detect`.  The error dict
of the `except` branch carries no `normalized_message` key, hence that
field is optional. -/
structure IntentResult where
  intent : String
  confidence : ℚ
  language : String
  normalized_message : Option String
  entities : Entities
  workflow : Option Workflow
  suggested_actions : List String
  requires_confirmation : Bool
  is_conversational : Bool
deriving DecidableEq

/-- An abstract Python exception. -/
inductive PyExc where
  | exc : PyExc
deriving DecidableEq

/-- The stage functions called inside the `try` block of
`IntentDetector.detect`, as fallible computations: replacing a stage by a
failing one models an unexpected exception inside that stage.
`realStages` below is the source's actual (total) code. -/
structure Stages (σ : Type) where
  stage_detect_language : List Char → Except PyExc String
  stage_normalize : List Char → Except PyExc (List Char)
  stage_primary_intent : List Char → Except PyExc (String × ℚ)
  stage_extract_entities : List Char → String → Except PyExc Entities
  stage_get_workflow : String → Entities → Option Unit → Except PyExc (Option Workflow)
  stage_get_suggestions : String → Option Workflow → Except PyExc (List String)
  stage_needs_confirmation : String → Except PyExc Bool
  stage_is_conversational : String → Except PyExc Bool

/-- The fixed error dict of the `except` branch (`self.language` holds
`language`). -/
def errorResult (language : String) : IntentResult :=
  { intent := "unknown", confidence := 0, language := language,
    normalized_message := none, entities := emptyEntities, workflow := none,
    suggested_actions := ["Could you clarify what you need?"],
    requires_confirmation := false, is_conversational := true }

/-- The `try` block after the language stage, stage by stage. -/
def detectRest (st : Stages Unit) (language : String) (message : List Char)
    (session_context : Option Unit) : Except PyExc IntentResult :=
  match st.stage_normalize message with
  | .error e => .error e
  | .ok normalized =>
    match st.stage_primary_intent normalized with
    | .error e => .error e
    | .ok ic =>
      match st.stage_extract_entities message ic.1 with
      | .error e => .error e
      | .ok entities =>
        match st.stage_get_workflow ic.1 entities session_context with
        | .error e => .error e
        | .ok workflow =>
          match st.stage_get_suggestions ic.1 workflow with
          | .error e => .error e
          | .ok suggestions =>
            match st.stage_needs_confirmation ic.1 with
            | .error e => .error e
            | .ok rc =>
              match st.stage_is_conversational ic.1 with
              | .error e => .error e
              | .ok conv =>
                .ok { intent := ic.1, confidence := ic.2, language := language,
                      normalized_message := some (String.mk normalized),
                      entities := entities, workflow := workflow,
                      suggested_actions := suggestions,
                      requires_confirmation := rc, is_conversational := conv }

/-- The whole `try` block. -/
def detectTry (st : Stages Unit) (message : List Char)
    (session_context : Option Unit) : Except PyExc IntentResult :=
  match st.stage_detect_language message with
  | .error e => .error e
  | .ok language => detectRest st language message session_context

def exceptFailed {α : Type} : Except PyExc α → Bool
  | .error _ => true
  | .ok _ => false

/-- `IntentDetector.detect` with explicit stages: the `try/except` of the
source.  `language0` is the value of `self.language` on entry (`'en'` for
a fresh detector); the `except` branch reports the language stage's
result when that stage completed before the failure. -/
def detectWith (st : Stages Unit) (language0 : String) (message : List Char)
    (session_context : Option Unit) : IntentResult :=
  match st.stage_detect_language message with
  | .error _ => errorResult language0
  | .ok language =>
    match detectRest st language message session_context with
    | .ok r => r
    | .error _ => errorResult language

/-- The source's actual stage functions (all total). -/
def realStages : Stages Unit :=
  { stage_detect_language := fun m => .ok (detect_language m),
    stage_normalize := fun m => .ok (normalize_message m),
    stage_primary_intent := fun n => .ok (detect_primary_intent n),
    stage_extract_entities := fun m i => .ok (extract_entities m i),
    stage_get_workflow := fun i e c => .ok (get_workflow i e c),
    stage_get_suggestions := fun i w => .ok (get_suggestions i w),
    stage_needs_confirmation := fun i => .ok (needs_confirmation i),
    stage_is_conversational := fun i => .ok (is_conversational i) }

/-- `IntentDetector.detect` on a fresh detector (`self.language = 'en'`);
the unused `conversation_history` parameter is dropped and no session
context is supplied. -/
def detect (message : List Char) : IntentResult :=
  detectWith realStages "en" message none

end IntentDetector

/-- C8: whenever any stage of the pipeline fails, the orchestration
boundary returns the fixed error result — intent `unknown`, confidence 0,
empty entities, no workflow and a single clarification prompt — and,
being a total function, `detectWith` never re-raises to the caller. -/
theorem C8_stage_failure_yields_error_result (st : IntentDetector.Stages Unit)
    (language0 : String) (message : List Char) (session_context : Option Unit)
    (h : IntentDetector.exceptFailed
      (IntentDetector.detectTry st message session_context) = true) :
    (IntentDetector.detectWith st language0 message session_context).intent = "unknown" ∧
      (IntentDetector.detectWith st language0 message session_context).confidence = 0 ∧
      (IntentDetector.detectWith st language0 message session_context).entities =
        emptyEntities ∧
      (IntentDetector.detectWith st language0 message session_context).workflow = none ∧
      (IntentDetector.detectWith st language0 message session_context).suggested_actions =
        ["Could you clarify what you need?"] := by
  unfold IntentDetector.detectWith
  unfold IntentDetector.detectTry at h
  cases hl : st.stage_detect_language message with
  | error e =>
    simp only [hl]
    exact ⟨rfl, rfl, rfl, rfl, rfl⟩
  | ok language =>
    simp only [hl] at h ⊢
    cases hr : IntentDetector.detectRest st language message session_context with
    | ok r =>
      rw [hr] at h
      simp [IntentDetector.exceptFailed] at h
    | error e =>
      simp only [hr]
      exact ⟨rfl, rfl, rfl, rfl, rfl⟩

/-- Stages in which normalization raises, for the C8 witness. -/
def failingStages : IntentDetector.Stages Unit :=
  { IntentDetector.realStages with
    stage_normalize := fun _ => .error IntentDetector.PyExc.exc }

/-- Witness for C8: a failure in the normalization stage on a concrete
message yields the error result. -/
theorem C8_stage_failure_yields_error_result_witness :
    (IntentDetector.detectWith failingStages "en" "hello".data none).intent = "unknown" ∧
      (IntentDetector.detectWith failingStages "en" "hello".data none).confidence = 0 ∧
      (IntentDetector.detectWith failingStages "en" "hello".data none).entities =
        emptyEntities ∧
      (IntentDetector.detectWith failingStages "en" "hello".data none).workflow = none ∧
      (IntentDetector.detectWith failingStages "en" "hello".data
          none).suggested_actions = ["Could you clarify what you need?"] :=
  C8_stage_failure_yields_error_result failingStages "en" "hello".data none (by decide)

/-- C6, counterexample: the greeting suggestion list of the source has
four entries, not three. -/
theorem C6_counterexample :
    (IntentDetector.get_suggestions "greeting" none).length = 4 ∧
      (IntentDetector.get_suggestions "greeting" none).length ≠ 3 :=
  ⟨by decide, by decide⟩

/-- C6 amended: `suggest` applied to the greeting intent returns an
ordered list of exactly 4 strings (for any workflow argument). -/
theorem C6_amended (workflow : Option IntentDetector.Workflow) :
    (IntentDetector.get_suggestions "greeting" workflow).length = 4 := rfl

/-- The utterance of claim C2. -/
def weatherExample : List Char := "What's the weather today?".data

/-- C2, counterexample: the claim's "random unrelated text" in fact fires
the help rule — `what` (in `HELP_KEYWORDS`) is a substring of the
normalized utterance — so the intent is `help`, not `unknown`. -/
theorem C2_counterexample :
    (IntentDetector.detect weatherExample).intent = "help" ∧
      (IntentDetector.detect weatherExample).intent ≠ "unknown" :=
  ⟨by decide, by decide⟩

/-- C2 amended: for the utterance «What's the weather today?» the pipeline
returns intent `help` with confidence 0.85 (the help keyword `what`
matches as a substring of `what's`), a null workflow, and the 3-item help
suggestion list (not the generic fallback list). -/
theorem C2_amended :
    (IntentDetector.detect weatherExample).intent = "help" ∧
      (IntentDetector.detect weatherExample).confidence = 0.85 ∧
      (IntentDetector.detect weatherExample).workflow = none ∧
      (IntentDetector.detect weatherExample).suggested_actions =
        ["Can you help me navigate?", "What services are available?",
         "Go back to main menu"] :=
  ⟨by decide, rfl, by decide, by decide⟩

/-- The utterance of claim C3. -/
def swExample : List Char := "Nataka kusaidia, nambari yangu ya simu ni 0712345678".data

/-- The C3 utterance after `lower().strip()`. -/
def swExampleNorm : List Char :=
  "nataka kusaidia, nambari yangu ya simu ni 0712345678".data

theorem swExample_norm : pyStrip (pyLower swExample) = swExampleNorm := by decide

theorem swExample_sw_score :
    LanguageDetector.score_kiswahili swExampleNorm = 0.45 := by
  have h1 : (pySplit swExampleNorm).length = 8 := by decide
  have h2 : ((pySplit swExampleNorm).filter (fun w =>
      (LanguageDetector.KISWAHILI_VOCABULARY.map String.data).contains
        (LanguageDetector.normalize_word w))).length = 2 := by decide
  have h3 : ([LanguageDetector.pat1 swExampleNorm, LanguageDetector.pat2 swExampleNorm,
      LanguageDetector.pat3 swExampleNorm, LanguageDetector.pat4 swExampleNorm].filter
        (fun b => b)).length = 3 := by decide
  have h4 : ((LanguageDetector.SW_PHRASES.filter
      (fun p => pyInStr p.data swExampleNorm))).length = 1 := by decide
  simp only [LanguageDetector.score_kiswahili, h1, h2, h3, h4]
  norm_num [min_def]

theorem swExample_en_score :
    LanguageDetector.score_english swExampleNorm = 0 := by
  have h1 : (pySplit swExampleNorm).length = 8 := by decide
  have h2 : ((pySplit swExampleNorm).filter (fun w =>
      (LanguageDetector.ENGLISH_VOCABULARY.map String.data).contains
        (LanguageDetector.normalize_word w))).length = 0 := by decide
  have h3 : LanguageDetector.contractionScan swExampleNorm = false := by decide
  have h4 : (runsP isWordChar swExampleNorm).any
      (fun r => (LanguageDetector.EN_FUNCTION_WORDS.map String.data).contains r) = false := by
    decide
  have h5 : ((LanguageDetector.EN_PHRASES.filter
      (fun p => pyInStr p.data swExampleNorm))).length = 0 := by decide
  simp only [LanguageDetector.score_english, h1, h2, h3, h4, h5, Bool.false_eq_true,
    if_false]
  norm_num [min_def]

/-- C3, counterexample: on the C3 utterance the aggregated pipeline result
has language `en`, not `sw` — the intent service's own Kiswahili pattern
count is exactly 3, which does not pass the strict `> 3` threshold. -/
theorem C3_counterexample :
    ¬((IntentDetector.detect swExample).language = "sw" ∧
      (IntentDetector.detect swExample).entities.phone_number = some "0712345678") := by
  decide

/-- C3 amended: for the utterance «Nataka kusaidia, nambari yangu ya simu
ni 0712345678» the pipeline's aggregated result has language `en` (its own
heuristic scores exactly 3, not above the threshold 3) while still
extracting phone_number `0712345678`; the standalone language service's
`detect`, by contrast, returns `(sw, 1.0)` on this text. -/
theorem C3_amended :
    (IntentDetector.detect swExample).language = "en" ∧
      (IntentDetector.detect swExample).entities.phone_number = some "0712345678" ∧
      LanguageDetector.detect swExample none = ("sw", 1) := by
  refine ⟨by decide, by decide, ?_⟩
  show LanguageDetector.detectScore swExample = ("sw", 1)
  simp only [LanguageDetector.detectScore, swExample_norm, swExample_sw_score,
    swExample_en_score]
  norm_num [min_def]

/-
Code-switch segmentation (`LanguageDetector.detect_code_switches`).
-/

namespace LanguageDetector

/-- A code-switch segment (the source's dict; the source's `end` key is
named `stop` because `end` is a Lean keyword). -/
structure Segment where
  text : List Char
  language : Option String
  start : Int
  stop : Int
deriving DecidableEq

/-- `re.split(r'[.!?]', text)`: split at every occurrence of a
sentence-terminating character, keeping empty pieces. -/
def splitPunct : List Char → List (List Char)
  | [] => [[]]
  | c :: t =>
    if c == '.' || c == '!' || c == '?' then [] :: splitPunct t
    else
      match splitPunct t with
      | s :: rest => (c :: s) :: rest
      | [] => [[c]]

/-- The loop state of `detect_code_switches`. -/
structure CSState where
  current_language : Option String
  current_segment : List Char
  current_start : Int
  segments : List Segment

/-- One iteration of the sentence loop of `detect_code_switches`:
skip blank sentences; on a language change, flush the accumulated segment
(when non-empty) and restart accumulation; otherwise extend the current
segment.  Each consumed sentence is re-terminated with `". "`. -/
def csStep (textLen : Int) (st : CSState) (sentence : List Char) : CSState :=
  if pyStrip sentence = [] then st
  else if some (detect sentence none).1 ≠ st.current_language then
    if st.current_segment ≠ [] then
      { current_language := some (detect sentence none).1,
        current_segment := sentence ++ ['.', ' '],
        current_start := textLen - (sentence.length + 2),
        segments := st.segments ++ [{ text := pyStrip st.current_segment,
                                      language := st.current_language,
                                      start := st.current_start,
                                      stop := st.current_start + st.current_segment.length }] }
    else
      { current_language := some (detect sentence none).1,
        current_segment := sentence ++ ['.', ' '],
        current_start := textLen - (sentence.length + 2),
        segments := st.segments }
  else { st with current_segment := st.current_segment ++ (sentence ++ ['.', ' ']) }

/-- The trailing flush after the sentence loop of
`detect_code_switches`. -/
def csFinish (textLen : Int) (st : CSState) : List Segment :=
  if st.current_segment ≠ [] then
    st.segments ++ [{ text := pyStrip st.current_segment,
                      language := st.current_language,
                      start := textLen - st.current_segment.length,
                      stop := textLen }]
  else st.segments

/-- `LanguageDetector.detect_code_switches`. -/
def detect_code_switches (text : List Char) : List Segment :=
  csFinish (text.length : Int)
    ((splitPunct text).foldl (csStep (text.length : Int))
      { current_language := none, current_segment := [], current_start := 0, segments := [] })

/-- Loop invariant: the emitted segments alternate languages, segments are
only present once a segment is being accumulated, and the last emitted
segment's language differs from the language being accumulated. -/
def CSInv (st : CSState) : Prop :=
  List.Chain' (fun a b => a.language ≠ b.language) st.segments ∧
    (st.current_segment = [] → st.segments = []) ∧
    (∀ s, st.segments.getLast? = some s → s.language ≠ st.current_language)

theorem csStep_inv (textLen : Int) (st : CSState) (sentence : List Char)
    (h : CSInv st) : CSInv (csStep textLen st sentence) := by
  obtain ⟨hchain, hemp, hlast⟩ := h
  unfold csStep
  split_ifs with h1 h2 h3
  · exact ⟨hchain, hemp, hlast⟩
  · -- language change, non-empty current segment: flush it
    refine ⟨?_, ?_, ?_⟩
    · rw [List.chain'_append]
      refine ⟨hchain, List.chain'_singleton _, ?_⟩
      intro x hx y hy
      simp only [List.head?_cons, Option.mem_def, Option.some.injEq] at hy
      subst hy
      exact hlast x (Option.mem_def.mp hx)
    · intro hc
      exact absurd hc (by simp)
    · intro s hs
      simp only [List.getLast?_concat, Option.some.injEq] at hs
      subst hs
      exact fun he => h2 he.symm
  · -- language change, empty current segment: nothing to flush
    have hseg : st.segments = [] := hemp (by simpa using h3)
    refine ⟨by simp [hseg], ?_, ?_⟩
    · intro hc
      exact absurd hc (by simp)
    · intro s hs
      rw [hseg] at hs
      simp at hs
  · -- same language: extend the current segment
    refine ⟨hchain, ?_, hlast⟩
    intro hc
    exact absurd hc (by simp)

theorem foldl_csStep_inv (textLen : Int) :
    ∀ (ss : List (List Char)) (st : CSState),
      CSInv st → CSInv (ss.foldl (csStep textLen) st) := by
  intro ss
  induction ss with
  | nil => intro st h; exact h
  | cons s rest ih => intro st h; exact ih _ (csStep_inv textLen st s h)

theorem csFinish_chain (textLen : Int) (st : CSState) (h : CSInv st) :
    List.Chain' (fun a b => a.language ≠ b.language) (csFinish textLen st) := by
  obtain ⟨hchain, hemp, hlast⟩ := h
  unfold csFinish
  split_ifs with hcs
  · rw [List.chain'_append]
    refine ⟨hchain, List.chain'_singleton _, ?_⟩
    intro x hx y hy
    simp only [List.head?_cons, Option.mem_def, Option.some.injEq] at hy
    subst hy
    exact hlast x (Option.mem_def.mp hx)
  · exact hchain

end LanguageDetector

/-- C7: for every input text, `detect_code_switches` never returns two
consecutive segments carrying the same language tag: adjacent
same-language sentences are merged into the growing segment, and a
segment is only flushed when the detected language changes. -/
theorem C7_no_adjacent_same_language (text : List Char) :
    List.Chain' (fun a b => a.language ≠ b.language)
      (LanguageDetector.detect_code_switches text) := by
  obtain ⟨hchain, hemp, hlast⟩ :=
    LanguageDetector.foldl_csStep_inv (text.length : Int)
      (LanguageDetector.splitPunct text)
      { current_language := none, current_segment := [], current_start := 0, segments := [] }
      ⟨List.chain'_nil, fun _ => rfl, fun s hs => by simp at hs⟩
  exact LanguageDetector.csFinish_chain (text.length : Int) _ ⟨hchain, hemp, hlast⟩

end Rafiki
